import Mathlib

/-!
Shallow embedding, in Lean 4, of the translation orchestration engine of the
obsidian-translate-plugin repository: the retrying HTTP transport
(`HttpUtils.request`), the base translator template (`BaseTranslator`),
the instance factory (`TranslatorFactory.createTranslatorAsync`), and the
orchestration service (`ContentTranslationService`: `translateText`,
cache, history and batch tasks), together with theorems settling the
behavioural claims about them.

Conventions of the embedding:
* TypeScript string enums (`LanguageCode`, `TranslatorType`) are embedded as
  their runtime `String` values; the enum value lists appear as explicit
  `List String` constants.
* JS `Map`s are association lists in insertion order (head = oldest entry),
  with `mapGet`/`mapSet`/`mapDelete` reproducing `Map.get/set/delete`.
* Nondeterministic collaborators (the network, `Date.now()`, UUID and
  instance-id generation, a backend instance's `translate`) are oracle
  parameters; a function's interaction with them is threaded explicitly.
* A thrown JS value is a `Thrown`: either an `Error` instance or a plain
  object with a `message` property (the `TranslationError` object literals
  thrown by the base translator are plain objects, not `Error` instances).
* JS numbers that only ever hold integers are `Nat`/`Int` (with explicit
  32-bit wrap-around where the source uses bitwise operators); the batch
  progress percentage is an exact `Rat` where the source uses a float.
-/

namespace ObsidianTranslate

/-- JS `x || y` for an optional string: `undefined` and `""` are falsy. -/
def jsOrStr (x : Option String) (y : String) : String :=
  match x with
  | none => y
  | some s => if s = "" then y else s

/-- JS truthiness of an optional string field: present and non-empty. -/
def jsTruthyStr (x : Option String) : Bool :=
  match x with
  | none => false
  | some s => s != ""

/-- JS `String.prototype.includes(pat)` for a non-empty pattern. -/
def includesSubstr (s pat : String) : Bool :=
  decide (1 < (s.splitOn pat).length)

/-- Interpret an integer as a signed 32-bit value (JS `x & x` / `ToInt32`). -/
def toInt32 (n : Int) : Int :=
  let m := n % (4294967296 : Int)
  if m < 2147483648 then m else m - 4294967296

namespace CryptoUtils

/-- One iteration of `CryptoUtils.hash`:
`hash = ((hash << 5) - hash) + char; hash = hash & hash;`
(`<< 5` wraps to 32 bits, the final `& hash` converts back to Int32). -/
def hashStep (h : Int) (c : Nat) : Int :=
  toInt32 (toInt32 (h * 32) - h + (c : Int))

/-- The accumulated 32-bit hash over the character codes of `text`. -/
def hashInt (text : String) : Int :=
  text.data.foldl (fun h c => hashStep h c.toNat) 0

/-- `CryptoUtils.hash(text)`: `"0"` for the empty string, otherwise
`Math.abs(hash).toString(16)` of the accumulated 32-bit hash.
(Characters are taken as Unicode scalar values; this agrees with JS
`charCodeAt` on the Basic Multilingual Plane.) -/
def hash (text : String) : String :=
  if text.length = 0 then "0"
  else (Nat.toDigits 16 (hashInt text).natAbs).asString

end CryptoUtils

/-! ### JS `Map` as an insertion-ordered association list -/

/-- JS `Map.get`. -/
def mapGet {α : Type} (m : List (String × α)) (k : String) : Option α :=
  match m with
  | [] => none
  | (k0, v0) :: rest => if k0 = k then some v0 else mapGet rest k

/-- JS `Map.set`: replaces the value of an existing key in place (keeping
its insertion position), otherwise appends a new entry at the end. -/
def mapSet {α : Type} (m : List (String × α)) (k : String) (v : α) :
    List (String × α) :=
  match m with
  | [] => [(k, v)]
  | (k0, v0) :: rest =>
    if k0 = k then (k0, v) :: rest else (k0, v0) :: mapSet rest k v

/-- JS `Map.delete`: removes the entry with the given key, if present. -/
def mapDelete {α : Type} (m : List (String × α)) (k : String) :
    List (String × α) :=
  match m with
  | [] => []
  | (k0, v0) :: rest =>
    if k0 = k then rest else (k0, v0) :: mapDelete rest k

/-- JS `Map.has`. -/
def mapHas {α : Type} (m : List (String × α)) (k : String) : Bool :=
  (mapGet m k).isSome

/-! ### Core data types (src/types: enums, requests, responses, settings) -/

/-- The runtime string values of the `LanguageCode` enum. -/
def languageCodeValues : List String :=
  ["auto", "zh-CN", "zh-TW", "en", "ja", "ko", "fr", "de", "es", "ru",
   "it", "pt", "ar", "th", "vi", "id", "ms", "nl", "pl", "tr",
   "sv", "da", "no", "fi", "cs", "hu", "ro", "bg", "hr", "sk",
   "sl", "et", "lv", "lt", "uk", "el", "he", "fa", "hi", "bn",
   "ur", "ta", "te", "ml", "kn", "gu", "pa", "mr", "ne", "si",
   "my", "km", "lo", "ka", "am", "sw", "zu", "af", "sq", "az",
   "be", "bs", "eu", "ca", "cy", "eo", "gl", "is", "ga", "mt",
   "mk", "la", "mi", "sm", "sn", "st", "tl", "to", "xh", "yo",
   "haw", "ceb", "ny", "co", "fy", "gd", "hmn", "lb", "ps", "sd",
   "uz", "kk", "ky", "tg", "mn", "yi"]

/-- The runtime string values of the `TranslatorType` enum. -/
def translatorTypeValues : List String := ["openai", "custom"]

/-- `TranslationStatus` union type. -/
inductive TranslationStatus where
  | pending
  | success
  | error
  | cancelled
deriving DecidableEq, Repr

/-- `TranslationRequest`. `sourceLang` and `translator` are embedded as
`Option String` because the service code guards both with `||` fallbacks
(`request.sourceLang || AUTO`, `request.translator || defaultTranslator`). -/
structure TranslationRequest where
  text : String
  sourceLang : Option String
  targetLang : String
  translator : Option String
  maxTokens : Option Nat := none
deriving DecidableEq, Repr

/-- `TranslationResponse`. -/
structure TranslationResponse where
  originalText : String
  translatedText : String
  sourceLang : String
  targetLang : String
  translator : String
  status : TranslationStatus
  error : Option String := none
  timestamp : Nat
deriving DecidableEq, Repr

/-- `TranslatorConfig` (per-backend settings record). -/
structure TranslatorConfig where
  type : String
  name : String
  enabled : Bool
  apiKey : Option String := none
  apiUrl : Option String := none
  model : Option String := none
  maxTokens : Option Nat := none
  temperature : Option Rat := none
  timeout : Option Nat := none
  retryCount : Option Nat := none
  customHeaders : List (String × String) := []
deriving DecidableEq, Repr

/-- `PluginSettings.advanced`. Note there is no flag for history recording. -/
structure AdvancedSettings where
  enableCache : Bool
  cacheExpiry : Nat
  enableLogging : Bool
  logLevel : String
  maxTokens : Nat
deriving DecidableEq, Repr

/-- `PluginSettings.hotkeys`. -/
structure Hotkeys where
  translateKey : String
  translateAndReplaceKey : String
  showSidebarKey : String
deriving DecidableEq, Repr

/-- `PluginSettings`. -/
structure PluginSettings where
  defaultTranslator : String
  defaultTargetLang : String
  defaultDisplayMode : String
  translators : List (String × TranslatorConfig)
  hotkeys : Hotkeys
  advanced : AdvancedSettings
deriving DecidableEq, Repr

/-- `DEFAULT_CONFIG` from the config service. -/
def DEFAULT_CONFIG : PluginSettings :=
  { defaultTranslator := "openai"
    defaultTargetLang := "zh-CN"
    defaultDisplayMode := "popup"
    translators :=
      [("openai",
        { type := "openai", name := "OpenAI", enabled := false,
          timeout := some 30000, retryCount := some 3 }),
       ("custom",
        { type := "custom", name := "Custom", enabled := false,
          timeout := some 30000, retryCount := some 3 })]
    hotkeys :=
      { translateKey := "Ctrl+Shift+T",
        translateAndReplaceKey := "Ctrl+Shift+R",
        showSidebarKey := "Ctrl+Shift+S" }
    advanced :=
      { enableCache := true
        cacheExpiry := 24 * 60 * 60 * 1000
        enableLogging := true
        logLevel := "info"
        maxTokens := 128000 } }

/-- `TranslationHistory` entry. -/
structure TranslationHistory where
  id : String
  originalText : String
  translatedText : String
  sourceLang : String
  targetLang : String
  translator : String
  timestamp : Nat
deriving DecidableEq, Repr

/-- `TranslationCacheItem`. -/
structure TranslationCacheItem where
  originalText : String
  translatedText : String
  sourceLang : String
  targetLang : String
  translator : String
  timestamp : Nat
  hash : String
deriving DecidableEq, Repr

/-- A JS thrown value as seen by a `catch` clause: either an `Error`
instance, or a plain object that merely carries a `message` property
(such as the `TranslationError` object literals built by
`BaseTranslator.createTranslationError`, whose type is an interface,
not a class extending `Error`). -/
inductive Thrown where
  | errorInstance (message : String)
  | plainObject (message : String)
deriving DecidableEq, Repr

/-- The recurring expression
`error instanceof Error ? error.message : 'Unknown error'`. -/
def caughtMessage : Thrown → String
  | .errorInstance m => m
  | .plainObject _ => "Unknown error"

/-! ### ValidationUtils (src/utils/validation) -/

namespace ValidationUtils

/-- `ValidationUtils.validateLanguageCode`: non-empty and a member of the
`LanguageCode` enum values. -/
def validateLanguageCode (code : String) : Bool :=
  if code = "" then false
  else languageCodeValues.contains code

/-- A character matched by the `hasValidContent` regex
`[\w一-鿿぀-ゟ゠-ヿ]` of `validateText`. -/
def hasValidContentChar (c : Char) : Bool :=
  c.isAlphanum || c = '_' ||
  (0x4e00 ≤ c.toNat && c.toNat ≤ 0x9fff) ||
  (0x3040 ≤ c.toNat && c.toNat ≤ 0x309f) ||
  (0x30a0 ≤ c.toNat && c.toNat ≤ 0x30ff)

/-- `ValidationUtils.validateText`: non-empty after trimming, and containing
at least one word/CJK character. -/
def validateText (text : String) : Bool :=
  if text = "" then false
  else
    let trimmedText := text.trim
    if trimmedText.length = 0 then false
    else trimmedText.data.any hasValidContentChar

/-- `ValidationUtils.validateApiKey`: per-backend key format check
(`^sk-[a-zA-Z0-9]{48}$` for openai; length 8..200 for custom). -/
def validateApiKey (apiKey : String) (ttype : String) : Bool :=
  if apiKey = "" then false
  else
    let trimmedKey := apiKey.trim
    if trimmedKey.length = 0 then false
    else if ttype = "openai" then
      trimmedKey.startsWith "sk-" && trimmedKey.length == 51 &&
        (trimmedKey.drop 3).data.all (fun c => c.isAlphanum)
    else if ttype = "custom" then
      8 ≤ trimmedKey.length && trimmedKey.length ≤ 200
    else false

/-- The `any`-typed object passed to `ValidationUtils.validateConfig`;
a field holds `none` when the property is absent. -/
structure ConfigObject where
  translatorType : Option String := none
  sourceLanguage : Option String := none
  targetLanguage : Option String := none
  apiKey : Option String := none
deriving DecidableEq, Repr

/-- The `{ valid, errors }` object returned by
`ValidationUtils.validateConfig`. -/
structure ValidationResult where
  valid : Bool
  errors : List String
deriving DecidableEq, Repr

/-- `ValidationUtils.validateConfig`: collects missing required fields
(`translatorType`, `sourceLanguage`, `targetLanguage`), an invalid
translator type, invalid language codes and an invalid API key, and
reports `valid := errors.isEmpty`. -/
def validateConfig (config : ConfigObject) : ValidationResult :=
  let errors : List String :=
    (if config.translatorType.isNone then ["缺少必需字段: translatorType"] else []) ++
    (if config.sourceLanguage.isNone then ["缺少必需字段: sourceLanguage"] else []) ++
    (if config.targetLanguage.isNone then ["缺少必需字段: targetLanguage"] else [])
  let errors := errors ++
    (if jsTruthyStr config.translatorType &&
        !translatorTypeValues.contains (config.translatorType.getD "") then
      ["无效的翻译器类型"] else [])
  let errors := errors ++
    (if jsTruthyStr config.sourceLanguage &&
        !validateLanguageCode (config.sourceLanguage.getD "") then
      ["无效的源语言代码"] else [])
  let errors := errors ++
    (if jsTruthyStr config.targetLanguage &&
        !validateLanguageCode (config.targetLanguage.getD "") then
      ["无效的目标语言代码"] else [])
  let errors := errors ++
    (if jsTruthyStr config.apiKey && jsTruthyStr config.translatorType &&
        !validateApiKey (config.apiKey.getD "") (config.translatorType.getD "") then
      ["无效的API密钥格式"] else [])
  { valid := errors.length == 0, errors := errors }

/-- JS object truthiness: the `{ valid, errors }` result object is an
object and therefore always truthy, whatever `valid` says. -/
def objectTruthy (_ : ValidationResult) : Bool := true

end ValidationUtils

/-! ### ContentTranslationService: cache, history, translateText -/

namespace ContentTranslationService

/-- `generateTextHash`: hash of `text|sourceLang|targetLang|translator`. -/
def generateTextHash (text sourceLang targetLang translator : String) :
    String :=
  CryptoUtils.hash (text ++ "|" ++ sourceLang ++ "|" ++ targetLang ++ "|" ++ translator)

/-- `getCachedTranslation`: a pure lookup of the fingerprint in the cache
map. It reads nothing but the map entry itself — in particular neither the
entry's `timestamp` nor any expiry setting takes part in the decision. -/
def getCachedTranslation (cache : List (String × TranslationCacheItem))
    (text sourceLang targetLang translator : String) :
    Option TranslationCacheItem :=
  mapGet cache (generateTextHash text sourceLang targetLang translator)

/-- `cacheTranslation`: writes the entry under its fingerprint, then, if
the map has grown beyond 1000 entries, deletes the entry under
`keys().next().value` — the first (oldest-inserted) key. -/
def cacheTranslation (cache : List (String × TranslationCacheItem))
    (originalText : String) (response : TranslationResponse)
    (translator : String) (now : Nat) :
    List (String × TranslationCacheItem) :=
  let hash := generateTextHash originalText response.sourceLang
      response.targetLang translator
  let cacheItem : TranslationCacheItem :=
    { originalText := originalText
      translatedText := response.translatedText
      sourceLang := response.sourceLang
      targetLang := response.targetLang
      translator := translator
      timestamp := now
      hash := hash }
  let c := mapSet cache hash cacheItem
  if c.length > 1000 then
    match c.head? with
    | some e => mapDelete c e.1
    | none => c
  else c

/-- `createResponseFromCache`: reconstructs a success response from a
cache item, with a fresh timestamp. -/
def createResponseFromCache (cacheItem : TranslationCacheItem) (now : Nat) :
    TranslationResponse :=
  { originalText := cacheItem.originalText
    translatedText := cacheItem.translatedText
    sourceLang := cacheItem.sourceLang
    targetLang := cacheItem.targetLang
    translator := cacheItem.translator
    status := .success
    error := none
    timestamp := now }

/-- `addToHistory`: appends a history item and truncates to the last 1000
entries (`slice(-maxHistorySize)`). Called unconditionally on every
response the service obtains from a backend — no configuration flag
guards it. -/
def addToHistory (history : List TranslationHistory)
    (response : TranslationResponse) (translator : String) (uuid : String) :
    List TranslationHistory :=
  let historyItem : TranslationHistory :=
    { id := uuid
      originalText := response.originalText
      translatedText := response.translatedText
      sourceLang := response.sourceLang
      targetLang := response.targetLang
      translator := translator
      timestamp := response.timestamp }
  let h := history ++ [historyItem]
  let maxHistorySize := 1000
  if h.length > maxHistorySize then h.drop (h.length - maxHistorySize) else h

/-- The service state mutated by `translateText`. -/
structure ServiceState where
  isInitializedFlag : Bool
  translationCache : List (String × TranslationCacheItem)
  translationHistory : List TranslationHistory
deriving DecidableEq, Repr

/-- Oracle for the factory/backend interaction of one `translateText`
call: `createTranslatorAsync` may throw, and the obtained instance's
`translate` may throw or resolve with a response. -/
inductive BackendBehavior where
  | createThrows (e : Thrown)
  | translateThrows (e : Thrown)
  | translateReturns (response : TranslationResponse)
deriving DecidableEq, Repr

/-- The value built by the `catch` clause of `translateText`. -/
def errorResponse (config : PluginSettings) (request : TranslationRequest)
    (now : Nat) (e : Thrown) : TranslationResponse :=
  { originalText := request.text
    translatedText := ""
    sourceLang := jsOrStr request.sourceLang "auto"
    targetLang := request.targetLang
    translator := jsOrStr request.translator config.defaultTranslator
    status := .error
    error := some (caughtMessage e)
    timestamp := now }

/-- Observable result of one `translateText` call: the returned response,
the updated service state, and how many factory creations / backend
`translate` invocations took place. -/
structure TranslateTextResult where
  response : TranslationResponse
  state : ServiceState
  instancesCreated : Nat
  backendTranslateCalls : Nat
deriving DecidableEq, Repr

/-- `translateText`. `sanitizeHtml` stands for the
`utils.validation.sanitizeHtml` collaborator (its output is only handed
to the backend instance, which the `behavior` oracle absorbs); `now` is
`Date.now()` and `uuid` the generated history-entry id. The final catch
clause makes the function total: every failure path produces an
`errorResponse` instead of propagating. -/
def translateText (config : PluginSettings) (sanitizeHtml : String → String)
    (behavior : BackendBehavior) (now : Nat) (uuid : String)
    (s : ServiceState) (request : TranslationRequest) : TranslateTextResult :=
  if !s.isInitializedFlag then
    { response :=
        errorResponse config request now (.errorInstance "Service not initialized")
      state := s, instancesCreated := 0, backendTranslateCalls := 0 }
  else
    let sourceLanguage := jsOrStr request.sourceLang "auto"
    let targetLang := request.targetLang
    let text := request.text
    let translator := jsOrStr request.translator config.defaultTranslator
    let cachedResult :=
      if config.advanced.enableCache then
        getCachedTranslation s.translationCache text sourceLanguage targetLang translator
      else none
    match cachedResult with
    | some cachedItem =>
      { response := createResponseFromCache cachedItem now
        state := s, instancesCreated := 0, backendTranslateCalls := 0 }
    | none =>
      let maxTokens :=
        if config.advanced.maxTokens = 0 then 128000 else config.advanced.maxTokens
      let _translationRequest : TranslationRequest :=
        { text := sanitizeHtml text
          sourceLang := some sourceLanguage
          targetLang := targetLang
          translator := some translator
          maxTokens := some maxTokens }
      match mapGet config.translators translator with
      | none =>
        { response :=
            errorResponse config request now
              (.errorInstance ("Translator " ++ translator ++ " not configured"))
          state := s, instancesCreated := 0, backendTranslateCalls := 0 }
      | some _translatorConfig =>
        match behavior with
        | .createThrows e =>
          { response := errorResponse config request now e
            state := s, instancesCreated := 0, backendTranslateCalls := 0 }
        | .translateThrows e =>
          { response := errorResponse config request now e
            state := s, instancesCreated := 1, backendTranslateCalls := 1 }
        | .translateReturns response =>
          let cache1 :=
            if config.advanced.enableCache &&
                decide (response.status = TranslationStatus.success) then
              cacheTranslation s.translationCache text response translator now
            else s.translationCache
          let history1 := addToHistory s.translationHistory response translator uuid
          { response := response
            state :=
              { s with translationCache := cache1, translationHistory := history1 }
            instancesCreated := 1, backendTranslateCalls := 1 }

/-! #### Batch translation tasks -/

/-- `BatchTranslationTask.status`. -/
inductive BatchStatus where
  | pending
  | running
  | completed
  | failed
deriving DecidableEq, Repr

/-- `BatchTranslationTask`. The source fields `from`/`to` are named
`fromLang`/`toLang` here (`from` is a Lean keyword); `progress` is the
exact rational value of `((i + 1) / texts.length) * 100`. -/
structure BatchTranslationTask where
  id : String
  texts : List String
  fromLang : String
  toLang : String
  translator : String
  progress : Rat
  status : BatchStatus
  results : List TranslationResponse
  errors : List String
  startTime : Option Nat := none
  endTime : Option Nat := none
deriving DecidableEq, Repr

/-- `cancelBatchTranslation`, acting on a present task (the source first
looks the task up by id; a missing task likewise returns `false`): a
completed task cannot be cancelled; otherwise the status is set to
`failed` and a synthetic error message is appended. -/
def cancelBatchTranslation (task : BatchTranslationTask) :
    BatchTranslationTask × Bool :=
  if task.status = .completed then (task, false)
  else
    ({ task with
        status := .failed
        errors := task.errors ++ ["Translation cancelled by user"] },
     true)

/-- Oracle for one batch chunk's `translatorInstance.translate(request)`
call: the promise either resolves with a response or rejects with a
thrown value. -/
inductive ChunkOutcome where
  | resolved (response : TranslationResponse)
  | thrown (e : Thrown)
deriving DecidableEq, Repr

/-- The `try`/`catch` body of one iteration of the chunk loop of
`executeBatchTranslation` (entered only while the status is `running`):
a resolved response is pushed onto `results` (and its error message onto
`errors` when its status is `error`); a rejection pushes the caught
message onto `errors` and an in-place `status: error` placeholder onto
`results`; finally `progress` is recomputed. -/
def batchChunkStep (task : BatchTranslationTask) (text : String)
    (outcome : ChunkOutcome) (now : Nat) (i : Nat) : BatchTranslationTask :=
  let task : BatchTranslationTask :=
    match outcome with
    | .resolved response =>
      let task := { task with results := task.results ++ [response] }
      if response.status = TranslationStatus.error then
        { task with errors := task.errors ++ [jsOrStr response.error "Unknown error"] }
      else task
    | .thrown e =>
      { task with
          errors := task.errors ++ [caughtMessage e]
          results := task.results ++
            [{ originalText := text
               translatedText := ""
               sourceLang := task.fromLang
               targetLang := task.toLang
               translator := task.translator
               status := .error
               error := some (caughtMessage e)
               timestamp := now }] }
  { task with progress := (((i : Rat) + 1) / (task.texts.length : Rat)) * 100 }

/-- The chunk loop of `executeBatchTranslation` over the remaining
`(index, text)` pairs, also counting the backend `translate` calls made.
`cancelRequested i` says whether an external `cancelBatchTranslation`
call lands just before iteration `i`'s status check (cancellation is
cooperative: it can only be observed between chunks). A status other
than `running` breaks out of the loop. -/
def executeBatchLoop (outcomes : Nat → ChunkOutcome)
    (cancelRequested : Nat → Bool) (now : Nat) :
    List (Nat × String) → BatchTranslationTask × Nat →
    BatchTranslationTask × Nat
  | [], r => r
  | (i, text) :: rest, (task, calls) =>
    let task := if cancelRequested i then (cancelBatchTranslation task).1 else task
    if task.status ≠ .running then (task, calls)
    else
      executeBatchLoop outcomes cancelRequested now rest
        (batchChunkStep task text (outcomes i) now i, calls + 1)

/-- `executeBatchTranslation` on a task found in the task map, after the
factory has successfully produced the shared backend instance (a factory
failure would make the whole function reject, which
`startBatchTranslation`'s catch handler turns into a failed task):
flips the task to `running`, runs the chunk loop, and then sets the
status to `completed` unconditionally — even when the loop was broken by
a cancellation. -/
def executeBatchTranslation (outcomes : Nat → ChunkOutcome)
    (cancelRequested : Nat → Bool) (now : Nat)
    (task : BatchTranslationTask) : BatchTranslationTask × Nat :=
  let task := { task with status := .running, startTime := some now }
  let r := executeBatchLoop outcomes cancelRequested now
      task.texts.enum (task, 0)
  ({ r.1 with status := .completed, endTime := some now }, r.2)

end ContentTranslationService

/-! ### HttpUtils (src/utils/http): the retrying transport -/

deriving instance DecidableEq for Except

namespace HttpUtils

/-- An error captured by the `catch` of one request attempt: an
`HttpError` thrown for a failed status check, or another JS error
(a rejected `fetch`, or the abort fired by the timeout). -/
inductive ReqError where
  | httpError (message : String) (status : Option Nat) (body : String)
  | jsError (name : String) (message : String)
deriving DecidableEq, Repr

/-- `HttpUtils.shouldRetry`: network `TypeError`s mentioning `fetch`,
`AbortError` timeouts, and `HttpError`s with a (truthy) status ≥ 500 are
retryable; everything else is not. -/
def shouldRetry : ReqError → Bool
  | .jsError name message =>
    (name == "TypeError" && includesSubstr message "fetch") || name == "AbortError"
  | .httpError _ status _ =>
    match status with
    | some s => if s = 0 then false else decide (500 ≤ s)
    | none => false

/-- Oracle for one attempt's `fetch`: the promise rejects (network
failure or abort), or resolves with a status, status text and body. -/
inductive AttemptOutcome where
  | rejected (name : String) (message : String)
  | responded (status : Nat) (statusText : String) (body : String)
deriving DecidableEq, Repr

/-- The `HttpResponse` value returned on success. -/
structure HttpResponse where
  data : String
  status : Nat
  statusText : String
deriving DecidableEq, Repr

/-- `validateStatus = (status) => status >= 200 && status < 300`,
the default status check of `HttpUtils.request`. -/
def defaultValidateStatus (status : Nat) : Bool :=
  decide (200 ≤ status) && decide (status < 300)

/-- The `try` body of one attempt of `HttpUtils.request`: a resolved
response failing `validateStatus` throws an `HttpError` carrying the
status; otherwise the attempt succeeds. -/
def attemptResult (validateStatus : Nat → Bool) :
    AttemptOutcome → Except ReqError HttpResponse
  | .rejected name message => .error (.jsError name message)
  | .responded status statusText body =>
    if validateStatus status then
      .ok { data := body, status := status, statusText := statusText }
    else
      .error (.httpError
        ("Request failed with status " ++ toString status ++ ": " ++ statusText)
        (some status) body)

/-- Observable outcome of a `HttpUtils.request` call: the final result,
the number of attempts made, and the backoff delays awaited in order. -/
structure RequestRun where
  result : Except ReqError HttpResponse
  attempts : Nat
  delays : List Nat
deriving DecidableEq, Repr

/-- The attempt loop of `HttpUtils.request`
(`for attempt = 0..retries`): on failure, the last attempt breaks out
and surfaces the last error; a retryable error waits
`retryDelay * 2 ^ attempt` and retries; a non-retryable error is
rethrown immediately. `fuel` is `retries - attempt`. -/
def requestLoop (retryDelay : Nat) (validateStatus : Nat → Bool)
    (outcomes : Nat → AttemptOutcome) :
    Nat → Nat → List Nat → RequestRun
  | attempt, fuel, delays =>
    match attemptResult validateStatus (outcomes attempt) with
    | .ok resp => { result := .ok resp, attempts := attempt + 1, delays := delays }
    | .error e =>
      match fuel with
      | 0 => { result := .error e, attempts := attempt + 1, delays := delays }
      | fuel + 1 =>
        if shouldRetry e then
          requestLoop retryDelay validateStatus outcomes (attempt + 1) fuel
            (delays ++ [retryDelay * 2 ^ attempt])
        else
          { result := .error e, attempts := attempt + 1, delays := delays }

/-- `HttpUtils.request` with the given `retries`/`retryDelay`
configuration (defaults 3 and 1000). -/
def request (retries retryDelay : Nat) (validateStatus : Nat → Bool)
    (outcomes : Nat → AttemptOutcome) : RequestRun :=
  requestLoop retryDelay validateStatus outcomes 0 retries []

end HttpUtils

/-! ### BaseTranslator (src/translator/base): the request template -/

namespace BaseTranslator

/-- The base translator state relevant to `translate`: the
initialization flag and the subclass's `getSupportedLanguages()` list. -/
structure TranslatorState where
  isInitializedFlag : Bool
  supportedLanguages : List String
deriving DecidableEq, Repr

/-- `BaseTranslator.validateRequest`, returning the message of the error
it throws, or `none` when all checks pass. The checks run in source
order: text, source language shape, target language shape, equality,
source-language support, target-language support. -/
def validateRequest (supported : List String)
    (request : TranslationRequest) : Option String :=
  if request.text == "" || !ValidationUtils.validateText request.text then
    some "Invalid text for translation"
  else
    match request.sourceLang with
    | none => some "Invalid source language code"
    | some sl =>
      if sl == "" || !ValidationUtils.validateLanguageCode sl then
        some "Invalid source language code"
      else if !ValidationUtils.validateLanguageCode request.targetLang then
        some "Invalid target language code"
      else if sl == request.targetLang then
        some "Source and target languages cannot be the same"
      else if !supported.contains sl then
        some ("Source language " ++ sl ++ " is not supported")
      else if !supported.contains request.targetLang then
        some ("Target language " ++ request.targetLang ++ " is not supported")
      else none

/-- `BaseTranslator.preprocessText`: trim, collapse whitespace runs to a
single space, strip zero-width characters. -/
def preprocessText (text : String) : String :=
  let processed :=
    String.intercalate " "
      ((text.trim.split Char.isWhitespace).filter (fun s => s != ""))
  String.mk (processed.data.filter fun c =>
    !((0x200B ≤ c.toNat && c.toNat ≤ 0x200D) || c.toNat == 0xFEFF))

/-- `BaseTranslator.postprocessText`. -/
def postprocessText (text : String) : String := text.trim

/-- `BaseTranslator.getErrorCode`: substring classification of the
underlying message into the fixed error-code taxonomy. -/
def getErrorCode (message : String) : String :=
  if includesSubstr message "API key" then "INVALID_API_KEY"
  else if includesSubstr message "network" || includesSubstr message "fetch" then
    "NETWORK_ERROR"
  else if includesSubstr message "rate limit" then "RATE_LIMIT_EXCEEDED"
  else if includesSubstr message "quota" then "QUOTA_EXCEEDED"
  else if includesSubstr message "language" then "UNSUPPORTED_LANGUAGE"
  else "UNKNOWN_ERROR"

/-- The structured error object built by
`BaseTranslator.createTranslationError` (a plain object literal of the
`TranslationError` interface — not an `Error` instance; the `details`
record is flattened here and the stack omitted). -/
structure TranslationError where
  message : String
  code : String
  timestamp : Nat
  translatorType : String
  originalText : String
  sourceLanguage : String
  targetLanguage : String
deriving DecidableEq, Repr

/-- `BaseTranslator.createTranslationError`. -/
def createTranslationError (ttype : String) (message : String)
    (request : TranslationRequest) (now : Nat) : TranslationError :=
  { message := message
    code := getErrorCode message
    timestamp := now
    translatorType := ttype
    originalText := request.text
    sourceLanguage := jsOrStr request.sourceLang ""
    targetLanguage := request.targetLang }

/-- Observable outcome of one `BaseTranslator.translate` call: a
response, or the thrown `TranslationError`; plus the number of
`doTranslate` (adapter/backend) invocations made. -/
structure TranslateRun where
  result : Except TranslationError TranslationResponse
  doTranslateCalls : Nat
deriving DecidableEq, Repr

/-- `BaseTranslator.translate`. `doTranslate` is the subclass's adapter
call (an oracle: the text, source and target it is invoked with, and
whether it resolves or rejects). Every thrown error is wrapped by
`createTranslationError` and re-thrown. -/
def translate (st : TranslatorState) (ttype : String)
    (doTranslate : String → String → String → Except String String)
    (now : Nat) (request : TranslationRequest) : TranslateRun :=
  if !st.isInitializedFlag then
    { result := .error (createTranslationError ttype "Translator not initialized" request now)
      doTranslateCalls := 0 }
  else
    match validateRequest st.supportedLanguages request with
    | some msg =>
      { result := .error (createTranslationError ttype msg request now)
        doTranslateCalls := 0 }
    | none =>
      let preprocessedText := preprocessText request.text
      match doTranslate preprocessedText (jsOrStr request.sourceLang "") request.targetLang with
      | .error msg =>
        { result := .error (createTranslationError ttype msg request now)
          doTranslateCalls := 1 }
      | .ok translatedText =>
        { result := .ok
            { originalText := request.text
              translatedText := postprocessText translatedText
              sourceLang := jsOrStr request.sourceLang ""
              targetLang := request.targetLang
              translator := ttype
              status := .success
              error := none
              timestamp := now }
          doTranslateCalls := 1 }

end BaseTranslator

/-! ### TranslatorFactory (src/translator/factory) -/

namespace TranslatorFactory

/-- A live backend instance as stored in the factory's instance map. -/
structure FactoryInstance where
  type : String
  config : TranslatorConfig
deriving DecidableEq, Repr

/-- The factory's registry and instance map. -/
structure FactoryState where
  registeredTypes : List String
  instances : List (String × FactoryInstance)
deriving DecidableEq, Repr

/-- Result of `createTranslatorAsync`: a thrown value, or the created
instance together with the updated factory state. -/
inductive CreateOutcome where
  | threw (e : Thrown) (state : FactoryState)
  | created (inst : FactoryInstance) (state : FactoryState)
deriving DecidableEq, Repr

/-- The object `{ ...config, translatorType: type }` that
`createTranslatorAsync` hands to `ValidationUtils.validateConfig`. The
`TranslatorConfig` interface has no `sourceLanguage`/`targetLanguage`
properties, so those are absent on the spread. -/
def mergedValidationObject (config : TranslatorConfig) (ttype : String) :
    ValidationUtils.ConfigObject :=
  { translatorType := some ttype
    sourceLanguage := none
    targetLanguage := none
    apiKey := config.apiKey }

/-- `TranslatorFactory.createTranslatorAsync`. `genId` is the
`type_timestamp_random` id generated when `instanceId` is not supplied;
`initOutcome` is the oracle for the new instance's `initialize()` call.
The destroy of a previously stored instance under the same id uses the
base `destroy`, whose default cleanup hook always succeeds. Note the
config check: `!utils.validation.validateConfig(...)` negates the
returned `{ valid, errors }` *object*, which is always truthy, so the
`Invalid translator configuration` branch can never be taken. -/
def createTranslatorAsync (st : FactoryState) (ttype : String)
    (config : TranslatorConfig) (instanceId : Option String)
    (genId : String) (initOutcome : Except Thrown Unit) : CreateOutcome :=
  if !st.registeredTypes.contains ttype then
    .threw (.errorInstance ("Translator type " ++ ttype ++ " is not registered")) st
  else
    let validation := ValidationUtils.validateConfig (mergedValidationObject config ttype)
    if !ValidationUtils.objectTruthy validation then
      .threw (.errorInstance "Invalid translator configuration") st
    else
      let id := jsOrStr instanceId genId
      let instances1 :=
        if mapHas st.instances id then mapDelete st.instances id
        else st.instances
      let st1 : FactoryState := { st with instances := instances1 }
      match initOutcome with
      | .error e => .threw e st1
      | .ok _ =>
        let instance0 : FactoryInstance := { type := ttype, config := config }
        .created instance0 { st1 with instances := mapSet instances1 id instance0 }

end TranslatorFactory

/-! ## Helper lemmas about the JS `Map` embedding -/

theorem mapGet_mapSet_self {α : Type} (m : List (String × α)) (k : String) (v : α) :
    mapGet (mapSet m k v) k = some v := by
  induction m with
  | nil => simp [mapSet, mapGet]
  | cons e rest ih =>
    by_cases h : e.1 = k
    · simp [mapSet, mapGet, h]
    · simp [mapSet, mapGet, h, ih]

theorem mapSet_eq_append_of_get_none {α : Type} {m : List (String × α)}
    {k : String} (v : α) (h : mapGet m k = none) :
    mapSet m k v = m ++ [(k, v)] := by
  induction m with
  | nil => simp [mapSet]
  | cons e rest ih =>
    simp only [mapGet] at h
    by_cases he : e.1 = k
    · simp [he] at h
    · simp only [mapGet, he, if_neg] at h
      simp [mapSet, he, ih h]

theorem length_mapSet_of_get_some {α : Type} {m : List (String × α)}
    {k : String} {w : α} (v : α) (h : mapGet m k = some w) :
    (mapSet m k v).length = m.length := by
  induction m with
  | nil => simp [mapGet] at h
  | cons e rest ih =>
    simp only [mapGet] at h
    by_cases he : e.1 = k
    · simp [mapSet, he]
    · simp only [he, if_neg] at h
      simp [mapSet, he, ih h]

theorem mapDelete_cons_self {α : Type} (e : String × α) (rest : List (String × α)) :
    mapDelete (e :: rest) e.1 = rest := by
  simp [mapDelete]

theorem mapGet_mapDelete_of_ne {α : Type} (m : List (String × α))
    {k k' : String} (h : k' ≠ k) :
    mapGet (mapDelete m k') k = mapGet m k := by
  induction m with
  | nil => simp [mapDelete]
  | cons e rest ih =>
    by_cases he : e.1 = k'
    · have hek : e.1 ≠ k := fun hc => h (he ▸ hc)
      simp [mapDelete, mapGet, he, hek, h]
    · by_cases hek : e.1 = k
      · simp [mapDelete, mapGet, he, hek, Ne.symm h]
      · simp [mapDelete, mapGet, he, hek, ih]

theorem mapGet_append_right {α : Type} {m : List (String × α)} {k : String}
    (v : α) (h : mapGet m k = none) :
    mapGet (m ++ [(k, v)]) k = some v := by
  induction m with
  | nil => simp [mapGet]
  | cons e rest ih =>
    simp only [mapGet] at h
    by_cases he : e.1 = k
    · simp [he] at h
    · simp only [he, if_neg] at h
      simp [mapGet, he, ih h]

theorem mapGet_map_value {α β : Type} (m : List (String × α)) (g : α → β)
    (k : String) :
    mapGet (m.map (fun e => (e.1, g e.2))) k = (mapGet m k).map g := by
  induction m with
  | nil => simp [mapGet]
  | cons e rest ih =>
    by_cases he : e.1 = k
    · simp [mapGet, he]
    · simp [mapGet, he, ih]

/-! ## Helper lemmas about the translation cache -/

namespace ContentTranslationService

/-- The cache bound: a `cacheTranslation` call never leaves more than
1000 entries behind, starting from at most 1000. -/
theorem length_cacheTranslation {cache : List (String × TranslationCacheItem)}
    (text : String) (response : TranslationResponse) (translator : String)
    (now : Nat) (h : cache.length ≤ 1000) :
    (cacheTranslation cache text response translator now).length ≤ 1000 := by
  simp only [cacheTranslation]
  set k := generateTextHash text response.sourceLang response.targetLang translator with hk
  set item : TranslationCacheItem :=
    { originalText := text
      translatedText := response.translatedText
      sourceLang := response.sourceLang
      targetLang := response.targetLang
      translator := translator
      timestamp := now
      hash := k } with hitem
  cases hget : mapGet cache k with
  | some w =>
    have hlen : (mapSet cache k item).length = cache.length :=
      length_mapSet_of_get_some item hget
    rw [hlen]
    rw [if_neg (by omega)]
    omega
  | none =>
    have happ := mapSet_eq_append_of_get_none (m := cache) (k := k) item hget
    rw [happ]
    by_cases hlen : cache.length + 1 > 1000
    · have h1000 : cache.length = 1000 := by omega
      cases cache with
      | nil => simp at h1000
      | cons e rest =>
        have hr : rest.length + 1 = 1000 := by simpa using h1000
        rw [if_pos (by simp; omega)]
        simp only [List.cons_append, List.head?_cons]
        rw [mapDelete_cons_self]
        simp only [List.length_append, List.length_cons, List.length_nil]
        omega
    · rw [if_neg (by simp; omega)]
      simp
      omega

/-- After `cacheTranslation`, the entry under the written fingerprint is
the freshly written item (the size-cap eviction never removes it). -/
theorem mapGet_cacheTranslation_self {cache : List (String × TranslationCacheItem)}
    (text : String) (response : TranslationResponse) (translator : String)
    (now : Nat) (h : cache.length ≤ 1000) :
    mapGet (cacheTranslation cache text response translator now)
        (generateTextHash text response.sourceLang response.targetLang translator) =
      some
        { originalText := text
          translatedText := response.translatedText
          sourceLang := response.sourceLang
          targetLang := response.targetLang
          translator := translator
          timestamp := now
          hash := generateTextHash text response.sourceLang response.targetLang translator } := by
  simp only [cacheTranslation]
  set k := generateTextHash text response.sourceLang response.targetLang translator with hk
  set item : TranslationCacheItem :=
    { originalText := text
      translatedText := response.translatedText
      sourceLang := response.sourceLang
      targetLang := response.targetLang
      translator := translator
      timestamp := now
      hash := k } with hitem
  cases hget : mapGet cache k with
  | some w =>
    have hlen : (mapSet cache k item).length = cache.length :=
      length_mapSet_of_get_some _ hget
    rw [if_neg (by omega)]
    exact mapGet_mapSet_self cache k item
  | none =>
    have happ := mapSet_eq_append_of_get_none (m := cache) (k := k) item hget
    rw [happ]
    by_cases hlen : cache.length + 1 > 1000
    · have h1000 : cache.length = 1000 := by omega
      cases cache with
      | nil => simp at h1000
      | cons e rest =>
        have hr : rest.length + 1 = 1000 := by simpa using h1000
        rw [if_pos (by simp; omega)]
        simp only [List.cons_append, List.head?_cons]
        rw [mapDelete_cons_self]
        have hne : e.1 ≠ k := by
          intro hcontra
          simp [mapGet, hcontra] at hget
        have hrest : mapGet rest k = none := by
          simpa [mapGet, hne] using hget
        exact mapGet_append_right item hrest
    · rw [if_neg (by simp; omega)]
      exact mapGet_append_right item hget

/-! ## Characterization lemmas for `translateText` -/

/-- The translator name a `translateText` call resolves to. -/
def resolvedTranslator (config : PluginSettings) (request : TranslationRequest) :
    String :=
  jsOrStr request.translator config.defaultTranslator

/-- The cache lookup performed (when caching is enabled) by `translateText`. -/
def serviceCacheLookup (config : PluginSettings) (s : ServiceState)
    (request : TranslationRequest) : Option TranslationCacheItem :=
  getCachedTranslation s.translationCache request.text
    (jsOrStr request.sourceLang "auto") request.targetLang
    (resolvedTranslator config request)

theorem translateText_uninitialized (config : PluginSettings)
    (sanitizeHtml : String → String) (behavior : BackendBehavior) (now : Nat)
    (uuid : String) (s : ServiceState) (request : TranslationRequest)
    (h : s.isInitializedFlag = false) :
    translateText config sanitizeHtml behavior now uuid s request =
      { response :=
          errorResponse config request now (.errorInstance "Service not initialized")
        state := s, instancesCreated := 0, backendTranslateCalls := 0 } := by
  simp [translateText, h]

theorem translateText_cache_hit (config : PluginSettings)
    (sanitizeHtml : String → String) (behavior : BackendBehavior) (now : Nat)
    (uuid : String) (s : ServiceState) (request : TranslationRequest)
    (item : TranslationCacheItem)
    (hinit : s.isInitializedFlag = true)
    (hcache : config.advanced.enableCache = true)
    (hhit : serviceCacheLookup config s request = some item) :
    translateText config sanitizeHtml behavior now uuid s request =
      { response := createResponseFromCache item now
        state := s, instancesCreated := 0, backendTranslateCalls := 0 } := by
  simp only [serviceCacheLookup, resolvedTranslator] at hhit
  simp [translateText, hinit, hcache, hhit]

theorem translateText_miss_unconfigured (config : PluginSettings)
    (sanitizeHtml : String → String) (behavior : BackendBehavior) (now : Nat)
    (uuid : String) (s : ServiceState) (request : TranslationRequest)
    (hinit : s.isInitializedFlag = true)
    (hmiss : config.advanced.enableCache = true →
      serviceCacheLookup config s request = none)
    (hcfg : mapGet config.translators (resolvedTranslator config request) = none) :
    translateText config sanitizeHtml behavior now uuid s request =
      { response :=
          errorResponse config request now
            (.errorInstance
              ("Translator " ++ resolvedTranslator config request ++ " not configured"))
        state := s, instancesCreated := 0, backendTranslateCalls := 0 } := by
  simp only [serviceCacheLookup, resolvedTranslator] at hmiss hcfg ⊢
  by_cases hc : config.advanced.enableCache
  · simp [translateText, hinit, hc, hmiss hc, hcfg]
  · simp [translateText, hinit, hc, hcfg]

theorem translateText_miss_createThrows (config : PluginSettings)
    (sanitizeHtml : String → String) (e : Thrown) (now : Nat)
    (uuid : String) (s : ServiceState) (request : TranslationRequest)
    (tc : TranslatorConfig)
    (hinit : s.isInitializedFlag = true)
    (hmiss : config.advanced.enableCache = true →
      serviceCacheLookup config s request = none)
    (hcfg : mapGet config.translators (resolvedTranslator config request) = some tc) :
    translateText config sanitizeHtml (.createThrows e) now uuid s request =
      { response := errorResponse config request now e
        state := s, instancesCreated := 0, backendTranslateCalls := 0 } := by
  simp only [serviceCacheLookup, resolvedTranslator] at hmiss hcfg
  by_cases hc : config.advanced.enableCache
  · simp [translateText, hinit, hc, hmiss hc, hcfg]
  · simp [translateText, hinit, hc, hcfg]

theorem translateText_miss_translateThrows (config : PluginSettings)
    (sanitizeHtml : String → String) (e : Thrown) (now : Nat)
    (uuid : String) (s : ServiceState) (request : TranslationRequest)
    (tc : TranslatorConfig)
    (hinit : s.isInitializedFlag = true)
    (hmiss : config.advanced.enableCache = true →
      serviceCacheLookup config s request = none)
    (hcfg : mapGet config.translators (resolvedTranslator config request) = some tc) :
    translateText config sanitizeHtml (.translateThrows e) now uuid s request =
      { response := errorResponse config request now e
        state := s, instancesCreated := 1, backendTranslateCalls := 1 } := by
  simp only [serviceCacheLookup, resolvedTranslator] at hmiss hcfg
  by_cases hc : config.advanced.enableCache
  · simp [translateText, hinit, hc, hmiss hc, hcfg]
  · simp [translateText, hinit, hc, hcfg]

theorem translateText_miss_returns (config : PluginSettings)
    (sanitizeHtml : String → String) (response : TranslationResponse) (now : Nat)
    (uuid : String) (s : ServiceState) (request : TranslationRequest)
    (tc : TranslatorConfig)
    (hinit : s.isInitializedFlag = true)
    (hmiss : config.advanced.enableCache = true →
      serviceCacheLookup config s request = none)
    (hcfg : mapGet config.translators (resolvedTranslator config request) = some tc) :
    translateText config sanitizeHtml (.translateReturns response) now uuid s request =
      { response := response
        state :=
          { s with
              translationCache :=
                if config.advanced.enableCache &&
                    decide (response.status = TranslationStatus.success) then
                  cacheTranslation s.translationCache request.text response
                    (resolvedTranslator config request) now
                else s.translationCache
              translationHistory :=
                addToHistory s.translationHistory response
                  (resolvedTranslator config request) uuid }
        instancesCreated := 1, backendTranslateCalls := 1 } := by
  simp only [serviceCacheLookup, resolvedTranslator] at hmiss hcfg ⊢
  by_cases hc : config.advanced.enableCache
  · simp [translateText, hinit, hc, hmiss hc, hcfg]
  · simp [translateText, hinit, hc, hcfg]

/-! ## Helper lemmas for the batch chunk loop -/

/-- The response recorded at a chunk's index by the loop body: the
resolved response itself, or the in-place error placeholder built by the
catch clause. -/
def chunkResponse (fromLang toLang translator : String) (now : Nat)
    (text : String) : ChunkOutcome → TranslationResponse
  | .resolved r => r
  | .thrown e =>
    { originalText := text
      translatedText := ""
      sourceLang := fromLang
      targetLang := toLang
      translator := translator
      status := .error
      error := some (caughtMessage e)
      timestamp := now }

/-- The error messages one chunk appends to `task.errors`. -/
def chunkErrors : ChunkOutcome → List String
  | .resolved r =>
    if r.status = TranslationStatus.error then [jsOrStr r.error "Unknown error"]
    else []
  | .thrown e => [caughtMessage e]

/-- Whether a chunk counts as failed (rejected, or resolved with an
error-status response). -/
def chunkFailed : ChunkOutcome → Bool
  | .resolved r => decide (r.status = TranslationStatus.error)
  | .thrown _ => true

theorem length_chunkErrors (o : ChunkOutcome) :
    (chunkErrors o).length = if chunkFailed o then 1 else 0 := by
  cases o with
  | resolved r =>
    by_cases h : r.status = TranslationStatus.error <;>
      simp [chunkErrors, chunkFailed, h]
  | thrown e => simp [chunkErrors, chunkFailed]

theorem batchChunkStep_eq (task : BatchTranslationTask) (text : String)
    (o : ChunkOutcome) (now : Nat) (i : Nat) :
    batchChunkStep task text o now i =
      { task with
          results := task.results ++
            [chunkResponse task.fromLang task.toLang task.translator now text o]
          errors := task.errors ++ chunkErrors o
          progress := (((i : Rat) + 1) / (task.texts.length : Rat)) * 100 } := by
  cases o with
  | resolved r =>
    by_cases h : r.status = TranslationStatus.error <;>
      simp [batchChunkStep, chunkResponse, chunkErrors, h]
  | thrown e => simp [batchChunkStep, chunkResponse, chunkErrors]

/-- Running the chunk loop with no cancellation request processes every
remaining chunk in order: one response is recorded per chunk (in place),
one backend call is made per chunk, the per-chunk error messages are
appended, and the task stays `running`. -/
theorem executeBatchLoop_no_cancel (outcomes : Nat → ChunkOutcome) (now : Nat) :
    ∀ (chunks : List (Nat × String)) (task : BatchTranslationTask) (calls : Nat),
      task.status = .running →
      ∃ p : Rat,
        executeBatchLoop outcomes (fun _ => false) now chunks (task, calls) =
          ({ task with
              results := task.results ++ chunks.map (fun q =>
                chunkResponse task.fromLang task.toLang task.translator now q.2
                  (outcomes q.1))
              errors := task.errors ++
                chunks.flatMap (fun q => chunkErrors (outcomes q.1))
              progress := p },
           calls + chunks.length) := by
  intro chunks
  induction chunks with
  | nil =>
    intro task calls h
    exact ⟨task.progress, by simp [executeBatchLoop]⟩
  | cons q rest ih =>
    intro task calls h
    obtain ⟨i, text⟩ := q
    have hstep := batchChunkStep_eq task text (outcomes i) now i
    have hstatus : (batchChunkStep task text (outcomes i) now i).status = .running := by
      rw [hstep]; exact h
    obtain ⟨p, hp⟩ := ih (batchChunkStep task text (outcomes i) now i) (calls + 1) hstatus
    refine ⟨p, ?_⟩
    rw [executeBatchLoop]
    have hnc : (if (false = true) then (cancelBatchTranslation task).1 else task) = task :=
      if_neg (by simp)
    rw [hnc, if_neg (by simp [h]), hp, hstep]
    simp [List.append_assoc, Nat.add_comm, Nat.add_assoc, Nat.add_left_comm]

theorem length_flatMap_chunkErrors (outcomes : Nat → ChunkOutcome) :
    ∀ chunks : List (Nat × String),
      (chunks.flatMap (fun q => chunkErrors (outcomes q.1))).length =
        chunks.countP (fun q => chunkFailed (outcomes q.1)) := by
  intro chunks
  induction chunks with
  | nil => simp
  | cons q rest ih =>
    simp only [List.flatMap_cons, List.length_append, ih, List.countP_cons,
      length_chunkErrors]
    by_cases h : chunkFailed (outcomes q.1) <;> simp [h] <;> omega

end ContentTranslationService

/-! ## Helper lemmas for the transport retry loop -/

namespace HttpUtils

theorem requestLoop_attempts_le (retryDelay : Nat) (v : Nat → Bool)
    (outcomes : Nat → AttemptOutcome) :
    ∀ (fuel attempt : Nat) (delays : List Nat),
      (requestLoop retryDelay v outcomes attempt fuel delays).attempts ≤
        attempt + fuel + 1 := by
  intro fuel
  induction fuel with
  | zero =>
    intro attempt delays
    rw [requestLoop]
    cases attemptResult v (outcomes attempt) <;> simp
  | succ n ih =>
    intro attempt delays
    rw [requestLoop]
    cases h : attemptResult v (outcomes attempt) with
    | ok r => simp
    | error e =>
      by_cases hr : shouldRetry e
      · simp only [hr, if_pos]
        have := ih (attempt + 1) (delays ++ [retryDelay * 2 ^ attempt])
        omega
      · simp [hr]

theorem requestLoop_all_retryable (retryDelay : Nat) (v : Nat → Bool)
    (outcomes : Nat → AttemptOutcome) :
    ∀ (fuel attempt : Nat) (delays : List Nat),
      (∀ i, attempt ≤ i → i ≤ attempt + fuel →
        ∃ e, attemptResult v (outcomes i) = .error e ∧ shouldRetry e = true) →
      ∃ e, attemptResult v (outcomes (attempt + fuel)) = .error e ∧
        requestLoop retryDelay v outcomes attempt fuel delays =
          { result := .error e
            attempts := attempt + fuel + 1
            delays := delays ++
              (List.range fuel).map (fun j => retryDelay * 2 ^ (attempt + j)) } := by
  intro fuel
  induction fuel with
  | zero =>
    intro attempt delays hall
    obtain ⟨e, he, -⟩ := hall attempt le_rfl (by omega)
    refine ⟨e, by simpa using he, ?_⟩
    rw [requestLoop, he]
    simp
  | succ n ih =>
    intro attempt delays hall
    obtain ⟨e, he, hre⟩ := hall attempt le_rfl (by omega)
    obtain ⟨e2, he2, hrest⟩ := ih (attempt + 1)
      (delays ++ [retryDelay * 2 ^ attempt])
      (fun i h1 h2 => hall i (by omega) (by omega))
    refine ⟨e2, by rw [show attempt + (n + 1) = attempt + 1 + n by omega]; exact he2, ?_⟩
    rw [requestLoop, he]
    simp only [hre, if_pos]
    rw [hrest]
    have hrange : (List.range (n + 1)).map (fun j => retryDelay * 2 ^ (attempt + j)) =
        retryDelay * 2 ^ attempt ::
          (List.range n).map (fun j => retryDelay * 2 ^ (attempt + 1 + j)) := by
      rw [List.range_succ_eq_map, List.map_cons, List.map_map]
      simp only [List.cons.injEq]
      constructor
      · simp
      · apply List.map_congr_left
        intro j hj
        have hje : attempt + (j + 1) = attempt + 1 + j := by omega
        simp [Function.comp, Nat.succ_eq_add_one, hje]
    rw [hrange]
    have hatt : attempt + 1 + n + 1 = attempt + (n + 1) + 1 := by omega
    rw [hatt]
    simp [List.append_assoc]

theorem request_non_retryable_first (retries retryDelay : Nat) (v : Nat → Bool)
    (outcomes : Nat → AttemptOutcome) (e : ReqError)
    (he : attemptResult v (outcomes 0) = .error e)
    (hnr : shouldRetry e = false) :
    request retries retryDelay v outcomes =
      { result := .error e, attempts := 1, delays := [] } := by
  rw [request, requestLoop, he]
  cases retries with
  | zero => simp
  | succ n => simp [hnr]

end HttpUtils

/-! ## Helper lemma for the base translator validation chain -/

namespace BaseTranslator

/-- `validateRequest` passes only when every single check passes. -/
theorem validateRequest_eq_none {supported : List String}
    {request : TranslationRequest}
    (h : validateRequest supported request = none) :
    ValidationUtils.validateText request.text = true ∧
    ∃ sl, request.sourceLang = some sl ∧
      ValidationUtils.validateLanguageCode sl = true ∧
      ValidationUtils.validateLanguageCode request.targetLang = true ∧
      sl ≠ request.targetLang ∧
      supported.contains sl = true ∧
      supported.contains request.targetLang = true := by
  by_cases h1 : request.text == "" || !ValidationUtils.validateText request.text
  · simp [validateRequest, h1] at h
  · cases hsl : request.sourceLang with
    | none => simp [validateRequest, h1, hsl] at h
    | some sl =>
      by_cases h2 : sl == "" || !ValidationUtils.validateLanguageCode sl
      · simp [validateRequest, h1, hsl, h2] at h
      · by_cases h3 : ValidationUtils.validateLanguageCode request.targetLang
        · by_cases h4 : sl == request.targetLang
          · simp [validateRequest, h1, hsl, h2, h3, h4] at h
          · by_cases h5 : supported.contains sl
            · by_cases h6 : supported.contains request.targetLang
              · have h1r : ¬request.text = "" ∧
                    ValidationUtils.validateText request.text = true := by
                  simpa [not_or] using h1
                have h2r : ¬sl = "" ∧
                    ValidationUtils.validateLanguageCode sl = true := by
                  simpa [not_or] using h2
                exact ⟨h1r.2, sl, rfl, h2r.2, h3, by simpa using h4, h5, h6⟩
              · have h5m : sl ∈ supported := by simpa using h5
                have h6m : request.targetLang ∉ supported := by simpa using h6
                simp [validateRequest, h1, hsl, h2, h3, h4, h5m, h6m] at h
            · have h5m : sl ∉ supported := by simpa using h5
              simp [validateRequest, h1, hsl, h2, h3, h4, h5m] at h
        · simp [validateRequest, h1, hsl, h2, h3] at h

end BaseTranslator

/-! ## Concrete fixtures shared by the claim theorems and witnesses -/

/-- A successful backend response for the text `"hello"`. -/
def sampleResponse : TranslationResponse :=
  { originalText := "hello"
    translatedText := "你好"
    sourceLang := "auto"
    targetLang := "zh-CN"
    translator := "openai"
    status := .success
    error := none
    timestamp := 7 }

/-- A plain translation request for `"hello"`. -/
def sampleRequest : TranslationRequest :=
  { text := "hello"
    sourceLang := some "auto"
    targetLang := "zh-CN"
    translator := some "openai" }

/-- An initialized service with empty cache and history. -/
def sampleState : ContentTranslationService.ServiceState :=
  { isInitializedFlag := true
    translationCache := []
    translationHistory := [] }

/-- A freshly created two-chunk batch task, as built by
`startBatchTranslation`. -/
def sampleTask : ContentTranslationService.BatchTranslationTask :=
  { id := "task-1"
    texts := ["hello", "world"]
    fromLang := "auto"
    toLang := "zh-CN"
    translator := "openai"
    progress := 0
    status := .pending
    results := []
    errors := [] }

/-- The default OpenAI backend configuration of `DEFAULT_CONFIG`. -/
def sampleOpenAIConfig : TranslatorConfig :=
  { type := "openai"
    name := "OpenAI"
    enabled := false
    timeout := some 30000
    retryCount := some 3 }

/-- A factory with the openai backend registered and no live instances. -/
def sampleFactoryState : TranslatorFactory.FactoryState :=
  { registeredTypes := ["openai"]
    instances := [] }

/-! ## Claim theorems -/

open ContentTranslationService in
/-- Claim C1 (the code contradicts it — failing input evaluated).
Cancelling the running two-chunk batch between chunk 0 and chunk 1 does
momentarily flip the status `running → failed` with the synthetic
cancellation error appended, and it does halt chunk processing (exactly
one result is recorded and exactly one backend call is made, and the
chunk loop itself exits with the task still `failed`); but the epilogue
of `executeBatchTranslation` then unconditionally overwrites the status
with `completed`, so the cancelled task neither stays `failed` nor is
`failed` a terminal status. -/
theorem C1_cancelled_batch_ends_completed :
    (cancelBatchTranslation { sampleTask with status := .running }).1.status =
        BatchStatus.failed ∧
    (cancelBatchTranslation { sampleTask with status := .running }).1.errors =
        ["Translation cancelled by user"] ∧
    (executeBatchLoop (fun _ => .resolved sampleResponse) (fun i => i == 1) 5
        sampleTask.texts.enum
        ({ sampleTask with status := .running, startTime := some 5 }, 0)).1.status =
      BatchStatus.failed ∧
    (executeBatchTranslation (fun _ => .resolved sampleResponse) (fun i => i == 1) 5
        sampleTask).1.status = BatchStatus.completed ∧
    (executeBatchTranslation (fun _ => .resolved sampleResponse) (fun i => i == 1) 5
        sampleTask).1.errors = ["Translation cancelled by user"] ∧
    (executeBatchTranslation (fun _ => .resolved sampleResponse) (fun i => i == 1) 5
        sampleTask).1.results.length = 1 ∧
    (executeBatchTranslation (fun _ => .resolved sampleResponse) (fun i => i == 1) 5
        sampleTask).2 = 1 := by
  decide

open TranslatorFactory in
/-- Claim C6 (the code contradicts its `InvalidConfig` clause — failing
input evaluated). An unregistered type does fail with the
`NotRegistered` error, and creation does replace the instance stored
under the same id; but a config the validator rejects (the stock OpenAI
config: the merged object lacks the required `sourceLanguage` and
`targetLanguage` fields, so `validateConfig(...)` returns
`valid := false`) is nevertheless accepted: the `!validateConfig(...)`
check negates the always-truthy result object, so
`createTranslatorAsync` never fails with
`Invalid translator configuration` and proceeds to create, initialize
and store the instance. -/
theorem C6_invalid_config_branch_unreachable :
    createTranslatorAsync sampleFactoryState "custom" sampleOpenAIConfig none
        "custom_9_zz" (.ok ()) =
      .threw (.errorInstance "Translator type custom is not registered")
        sampleFactoryState ∧
    (ValidationUtils.validateConfig
        (mergedValidationObject sampleOpenAIConfig "openai")).valid = false ∧
    ValidationUtils.objectTruthy
        (ValidationUtils.validateConfig
          (mergedValidationObject sampleOpenAIConfig "openai")) = true ∧
    createTranslatorAsync sampleFactoryState "openai" sampleOpenAIConfig none
        "openai_9_zz" (.ok ()) =
      .created { type := "openai", config := sampleOpenAIConfig }
        { registeredTypes := ["openai"]
          instances :=
            [("openai_9_zz", { type := "openai", config := sampleOpenAIConfig })] } ∧
    createTranslatorAsync
        { registeredTypes := ["openai"]
          instances :=
            [("id1", { type := "openai",
                       config := { sampleOpenAIConfig with name := "Old" } })] }
        "openai" sampleOpenAIConfig (some "id1") "openai_9_zz" (.ok ()) =
      .created { type := "openai", config := sampleOpenAIConfig }
        { registeredTypes := ["openai"]
          instances :=
            [("id1", { type := "openai", config := sampleOpenAIConfig })] } := by
  decide

open ContentTranslationService in
/-- Claim C2: a batch task over `k` texts that runs with no cancellation
ends `completed` whatever the per-chunk outcomes; exactly one result is
recorded per chunk and one backend call made per chunk; index alignment
holds (`results[i]` is chunk `i`'s outcome: the resolved response
itself, or an error placeholder echoing `texts[i]`); and one entry is
appended to `task.errors` per failed chunk. -/
theorem C2_batch_index_alignment (task : BatchTranslationTask)
    (outcomes : Nat → ChunkOutcome) (now : Nat)
    (hres : task.results = []) (herr : task.errors = []) :
    (executeBatchTranslation outcomes (fun _ => false) now task).1.status =
        BatchStatus.completed ∧
    (executeBatchTranslation outcomes (fun _ => false) now task).1.results.length =
        task.texts.length ∧
    (executeBatchTranslation outcomes (fun _ => false) now task).2 =
        task.texts.length ∧
    (∀ i r, i < task.texts.length → outcomes i = .resolved r →
      (executeBatchTranslation outcomes (fun _ => false) now task).1.results[i]? =
        some r) ∧
    (∀ i t e, task.texts[i]? = some t → outcomes i = .thrown e →
      ∃ x,
        (executeBatchTranslation outcomes (fun _ => false) now task).1.results[i]? =
            some x ∧
          x.status = TranslationStatus.error ∧
          x.originalText = t ∧
          x.error = some (caughtMessage e)) ∧
    (executeBatchTranslation outcomes (fun _ => false) now task).1.errors.length =
      task.texts.enum.countP (fun q => chunkFailed (outcomes q.1)) := by
  have hstat : ({ task with status := BatchStatus.running, startTime := some now } :
      BatchTranslationTask).status = .running := rfl
  obtain ⟨p, hp⟩ := executeBatchLoop_no_cancel outcomes now
    ({ task with status := BatchStatus.running, startTime := some now } :
        BatchTranslationTask).texts.enum
    { task with status := BatchStatus.running, startTime := some now } 0 hstat
  have hrun : executeBatchTranslation outcomes (fun _ => false) now task =
      ({ task with
          status := BatchStatus.completed
          startTime := some now
          endTime := some now
          results := task.results ++ task.texts.enum.map (fun q =>
            chunkResponse task.fromLang task.toLang task.translator now q.2
              (outcomes q.1))
          errors := task.errors ++
            task.texts.enum.flatMap (fun q => chunkErrors (outcomes q.1))
          progress := p },
        task.texts.enum.length) := by
    simp only [executeBatchTranslation]
    rw [hp]
    simp
  rw [hrun, hres, herr]
  refine ⟨rfl, by simp, by simp, ?_, ?_, ?_⟩
  · intro i r hi ho
    simp only [List.nil_append]
    rw [List.getElem?_map, List.getElem?_enum,
      List.getElem?_eq_getElem (by simpa using hi)]
    simp [ho, chunkResponse]
  · intro i t e ht ho
    refine ⟨{ originalText := t
              translatedText := ""
              sourceLang := task.fromLang
              targetLang := task.toLang
              translator := task.translator
              status := .error
              error := some (caughtMessage e)
              timestamp := now }, ?_, rfl, rfl, rfl⟩
    simp only [List.nil_append]
    rw [List.getElem?_map, List.getElem?_enum, ht]
    simp [ho, chunkResponse]
  · simpa using length_flatMap_chunkErrors outcomes task.texts.enum

open ContentTranslationService in
/-- Witness for C2: the two-chunk sample task where chunk 1 rejects. -/
theorem C2_batch_index_alignment_witness :
    (executeBatchTranslation
        (fun i => if i == 1 then .thrown (.plainObject "boom")
          else .resolved sampleResponse)
        (fun _ => false) 5 sampleTask).1.status = BatchStatus.completed ∧
    (executeBatchTranslation
        (fun i => if i == 1 then .thrown (.plainObject "boom")
          else .resolved sampleResponse)
        (fun _ => false) 5 sampleTask).1.results.length = 2 ∧
    (executeBatchTranslation
        (fun i => if i == 1 then .thrown (.plainObject "boom")
          else .resolved sampleResponse)
        (fun _ => false) 5 sampleTask).1.errors.length = 1 := by
  have h := C2_batch_index_alignment sampleTask
    (fun i => if i == 1 then .thrown (.plainObject "boom")
      else .resolved sampleResponse) 5 rfl rfl
  exact ⟨h.1, by rw [h.2.1]; rfl, by rw [h.2.2.2.2.2]; decide⟩

open ContentTranslationService in
/-- Counterexample to claim C3 as stated. A backend failure is thrown by
the base translator as a structured plain-object `TranslationError`
carrying the message `"quota exceeded"`; the `catch` of `translateText`
evaluates `error instanceof Error ? error.message : 'Unknown error'`,
which is false for a plain object, so the returned response's `error`
field is the literal `"Unknown error"` — not the failure message. -/
theorem C3_counterexample :
    (translateText DEFAULT_CONFIG id
        (.translateThrows (.plainObject "quota exceeded")) 7 "u1" sampleState
        sampleRequest).response.status = TranslationStatus.error ∧
    (translateText DEFAULT_CONFIG id
        (.translateThrows (.plainObject "quota exceeded")) 7 "u1" sampleState
        sampleRequest).response.error = some "Unknown error" ∧
    (some "Unknown error" : Option String) ≠ some "quota exceeded" := by
  decide

open ContentTranslationService in
/-- Claim C3, amended: `translateText` is total — every call returns a
`TranslationResponse` — and on each internal failure (service not
initialized; translator not configured; the factory or the backend
throwing) the response has status `error` and echoes the request's
`originalText`, `sourceLang` (with the `AUTO` fallback when absent) and
`targetLang`; the `error` field carries the failure message when the
thrown value is an `Error` instance, and the literal `"Unknown error"`
when it is a plain object such as the base translator's structured
`TranslationError`. -/
theorem C3_translateText_total_error_responses (config : PluginSettings)
    (sanitizeHtml : String → String) (behavior : BackendBehavior) (now : Nat)
    (uuid : String) (s : ServiceState) (request : TranslationRequest) :
    (s.isInitializedFlag = false →
      (translateText config sanitizeHtml behavior now uuid s request).response =
        errorResponse config request now
          (.errorInstance "Service not initialized")) ∧
    (s.isInitializedFlag = true →
      (config.advanced.enableCache = true →
        serviceCacheLookup config s request = none) →
      mapGet config.translators (resolvedTranslator config request) = none →
      (translateText config sanitizeHtml behavior now uuid s request).response =
        errorResponse config request now
          (.errorInstance
            ("Translator " ++ resolvedTranslator config request ++
              " not configured"))) ∧
    (∀ e, (behavior = .createThrows e ∨ behavior = .translateThrows e) →
      s.isInitializedFlag = true →
      (config.advanced.enableCache = true →
        serviceCacheLookup config s request = none) →
      (∃ tc, mapGet config.translators (resolvedTranslator config request) =
        some tc) →
      (translateText config sanitizeHtml behavior now uuid s request).response =
        errorResponse config request now e) ∧
    (∀ e, errorResponse config request now e =
      { originalText := request.text
        translatedText := ""
        sourceLang := jsOrStr request.sourceLang "auto"
        targetLang := request.targetLang
        translator := jsOrStr request.translator config.defaultTranslator
        status := .error
        error := some (caughtMessage e)
        timestamp := now }) := by
  refine ⟨?_, ?_, ?_, fun e => rfl⟩
  · intro hinit
    rw [translateText_uninitialized config sanitizeHtml behavior now uuid s
      request hinit]
  · intro hinit hmiss hcfg
    rw [translateText_miss_unconfigured config sanitizeHtml behavior now uuid s
      request hinit hmiss hcfg]
  · rintro e (rfl | rfl) hinit hmiss ⟨tc, hcfg⟩
    · rw [translateText_miss_createThrows config sanitizeHtml e now uuid s
        request tc hinit hmiss hcfg]
    · rw [translateText_miss_translateThrows config sanitizeHtml e now uuid s
        request tc hinit hmiss hcfg]

open ContentTranslationService in
/-- Witness for C3 (amended): the uninitialized service and an
`Error`-instance backend failure on the sample request. -/
theorem C3_translateText_total_error_responses_witness :
    (translateText DEFAULT_CONFIG id
        (.createThrows (.errorInstance "boom")) 7 "u1"
        { sampleState with isInitializedFlag := false }
        sampleRequest).response =
      errorResponse DEFAULT_CONFIG sampleRequest 7
        (.errorInstance "Service not initialized") ∧
    (translateText DEFAULT_CONFIG id
        (.createThrows (.errorInstance "boom")) 7 "u1" sampleState
        sampleRequest).response =
      errorResponse DEFAULT_CONFIG sampleRequest 7 (.errorInstance "boom") := by
  have h1 := C3_translateText_total_error_responses DEFAULT_CONFIG id
    (.createThrows (.errorInstance "boom")) 7 "u1"
    { sampleState with isInitializedFlag := false } sampleRequest
  have h2 := C3_translateText_total_error_responses DEFAULT_CONFIG id
    (.createThrows (.errorInstance "boom")) 7 "u1" sampleState sampleRequest
  refine ⟨h1.1 rfl, ?_⟩
  exact h2.2.2.1 (.errorInstance "boom") (Or.inl rfl) rfl (fun _ => rfl)
    ⟨sampleOpenAIConfig, by decide⟩

open ContentTranslationService in
/-- Claim C4: with caching enabled, after a `translateText` call that
succeeds for a given `(text, sourceLang, targetLang, backendType)`, a
second call with the identical request is answered from the cache: its
response has status `success` and the same `translatedText` as the
first call's result, and it creates no instance, invokes no backend
`translate`, and leaves the state untouched — whatever the backend
oracle of the second call would have done. -/
theorem C4_cache_round_trip (config : PluginSettings)
    (sanitizeHtml : String → String) (response : TranslationResponse)
    (now1 now2 : Nat) (uuid1 uuid2 : String) (s : ServiceState)
    (request : TranslationRequest) (tc : TranslatorConfig)
    (behavior2 : BackendBehavior)
    (hinit : s.isInitializedFlag = true)
    (hcache : config.advanced.enableCache = true)
    (hcfg : mapGet config.translators (resolvedTranslator config request) =
      some tc)
    (hsuccess : response.status = .success)
    (hsl : response.sourceLang = jsOrStr request.sourceLang "auto")
    (htl : response.targetLang = request.targetLang)
    (hlen : s.translationCache.length ≤ 1000)
    (r1 r2 : TranslateTextResult)
    (hr1 : r1 = translateText config sanitizeHtml (.translateReturns response)
      now1 uuid1 s request)
    (hr2 : r2 = translateText config sanitizeHtml behavior2 now2 uuid2
      r1.state request) :
    r1.response.status = .success ∧
    r2.response.status = .success ∧
    r2.response.translatedText = r1.response.translatedText ∧
    r2.instancesCreated = 0 ∧
    r2.backendTranslateCalls = 0 ∧
    r2.state = r1.state := by
  cases hlook : serviceCacheLookup config s request with
  | some item =>
    -- the first call is itself answered from the cache and changes nothing
    have h1 : r1 =
        { response := createResponseFromCache item now1
          state := s
          instancesCreated := 0
          backendTranslateCalls := 0 } := by
      rw [hr1, translateText_cache_hit config sanitizeHtml _ now1 uuid1 s
        request item hinit hcache hlook]
    have h2 : r2 =
        { response := createResponseFromCache item now2
          state := s
          instancesCreated := 0
          backendTranslateCalls := 0 } := by
      rw [hr2, h1]
      exact translateText_cache_hit config sanitizeHtml behavior2 now2 uuid2 s
        request item hinit hcache hlook
    refine ⟨?_, ?_, ?_, ?_, ?_, ?_⟩ <;>
      simp [h1, h2, createResponseFromCache]
  | none =>
    -- the first call goes to the backend and writes through to the cache
    have h1 : r1 =
        { response := response
          state :=
            { s with
                translationCache :=
                  cacheTranslation s.translationCache request.text response
                    (resolvedTranslator config request) now1
                translationHistory :=
                  addToHistory s.translationHistory response
                    (resolvedTranslator config request) uuid1 }
          instancesCreated := 1
          backendTranslateCalls := 1 } := by
      rw [hr1, translateText_miss_returns config sanitizeHtml response now1
        uuid1 s request tc hinit (fun _ => hlook) hcfg]
      simp [hcache, hsuccess]
    have hhit2 : serviceCacheLookup config r1.state request =
        some
          { originalText := request.text
            translatedText := response.translatedText
            sourceLang := response.sourceLang
            targetLang := response.targetLang
            translator := resolvedTranslator config request
            timestamp := now1
            hash := generateTextHash request.text response.sourceLang
              response.targetLang (resolvedTranslator config request) } := by
      rw [h1]
      show getCachedTranslation _ _ _ _ _ = _
      unfold getCachedTranslation
      rw [show generateTextHash request.text (jsOrStr request.sourceLang "auto")
          request.targetLang (resolvedTranslator config request) =
          generateTextHash request.text response.sourceLang response.targetLang
            (resolvedTranslator config request) by rw [hsl, htl]]
      exact mapGet_cacheTranslation_self request.text response
        (resolvedTranslator config request) now1 hlen
    have hinit1 : r1.state.isInitializedFlag = true := by rw [h1]; exact hinit
    have h2 := translateText_cache_hit config sanitizeHtml behavior2 now2 uuid2
      r1.state request _ hinit1 hcache hhit2
    rw [← hr2] at h2
    refine ⟨?_, ?_, ?_, ?_, ?_, ?_⟩ <;>
      simp [h1, h2, createResponseFromCache, hsuccess]

open ContentTranslationService in
/-- Witness for C4: the sample request against the default settings with
an empty cache; the second call's backend oracle is set to throw, yet
the call is served from the cache. -/
theorem C4_cache_round_trip_witness :
    (translateText DEFAULT_CONFIG id
        (.createThrows (.errorInstance "must not be called")) 9 "u2"
        (translateText DEFAULT_CONFIG id (.translateReturns sampleResponse) 7
          "u1" sampleState sampleRequest).state
        sampleRequest).response.translatedText = "你好" ∧
    (translateText DEFAULT_CONFIG id
        (.createThrows (.errorInstance "must not be called")) 9 "u2"
        (translateText DEFAULT_CONFIG id (.translateReturns sampleResponse) 7
          "u1" sampleState sampleRequest).state
        sampleRequest).backendTranslateCalls = 0 := by
  have h := C4_cache_round_trip DEFAULT_CONFIG id sampleResponse 7 9 "u1" "u2"
    sampleState sampleRequest sampleOpenAIConfig
    (.createThrows (.errorInstance "must not be called"))
    rfl rfl (by decide) rfl rfl rfl (by decide) _ _ rfl rfl
  refine ⟨?_, h.2.2.2.2.1⟩
  rw [h.2.2.1]
  decide

open HttpUtils in
/-- Claim C5: `HttpUtils.request` makes at most `retries + 1` attempts;
when every attempt fails with a retryable error (network failure,
abort/timeout, HTTP 5xx) it makes exactly `retries + 1` attempts,
waiting `retryDelay * 2 ^ attempt` before each retry, and surfaces the
last error; a non-retryable failure (such as an HTTP 4xx) on the first
attempt is surfaced immediately after exactly 1 attempt with no delay;
with `retries = 2` against an endpoint answering 503, 503, then 200,
the call makes exactly 3 attempts (backing off 1000 ms then 2000 ms)
and returns the successful response. -/
theorem C5_retry_backoff (retries retryDelay : Nat)
    (validateStatus : Nat → Bool) (outcomes : Nat → AttemptOutcome) :
    (request retries retryDelay validateStatus outcomes).attempts ≤
        retries + 1 ∧
    ((∀ i, i ≤ retries → ∃ e,
        attemptResult validateStatus (outcomes i) = .error e ∧
          shouldRetry e = true) →
      ∃ e, attemptResult validateStatus (outcomes retries) = .error e ∧
        request retries retryDelay validateStatus outcomes =
          { result := .error e
            attempts := retries + 1
            delays :=
              (List.range retries).map (fun j => retryDelay * 2 ^ j) }) ∧
    (∀ e, attemptResult validateStatus (outcomes 0) = .error e →
      shouldRetry e = false →
      request retries retryDelay validateStatus outcomes =
        { result := .error e, attempts := 1, delays := [] }) ∧
    (request 2 1000 defaultValidateStatus
        (fun i => if i < 2 then .responded 503 "Service Unavailable" ""
          else .responded 200 "OK" "ok") =
      { result := .ok { data := "ok", status := 200, statusText := "OK" }
        attempts := 3
        delays := [1000, 2000] }) ∧
    (request 2 1000 defaultValidateStatus
        (fun _ => .responded 401 "Unauthorized" "") =
      { result := .error (.httpError
          "Request failed with status 401: Unauthorized" (some 401) "")
        attempts := 1
        delays := [] }) := by
  refine ⟨?_, ?_, ?_, by decide, by decide⟩
  · have h := requestLoop_attempts_le retryDelay validateStatus outcomes
      retries 0 []
    rw [request]
    omega
  · intro hall
    obtain ⟨e, he, hloop⟩ := requestLoop_all_retryable retryDelay
      validateStatus outcomes retries 0 []
      (fun i h1 h2 => hall i (by omega))
    refine ⟨e, by simpa using he, ?_⟩
    rw [request, hloop]
    simp
  · intro e he hnr
    exact request_non_retryable_first retries retryDelay validateStatus
      outcomes e he hnr

open HttpUtils in
/-- Witness for C5: three all-retryable 503 responses with
`retries = 2`, compared against the concrete scenarios. -/
theorem C5_retry_backoff_witness :
    (request 2 1000 defaultValidateStatus
        (fun _ => .responded 503 "Service Unavailable" "")).attempts = 3 ∧
    (request 2 1000 defaultValidateStatus
        (fun _ => .responded 503 "Service Unavailable" "")).delays =
      [1000, 2000] := by
  have h := C5_retry_backoff 2 1000 defaultValidateStatus
    (fun _ => .responded 503 "Service Unavailable" "")
  obtain ⟨e, he, hrun⟩ := h.2.1 (fun i _ => by
    refine ⟨.httpError "Request failed with status 503: Service Unavailable"
      (some 503) "", by decide, by decide⟩)
  rw [hrun]
  exact ⟨rfl, rfl⟩

open BaseTranslator in
/-- Claim C7: `BaseTranslator.translate` fails by throwing — and never
invokes the subclass's `doTranslate` adapter (zero backend calls) —
whenever the translator is not initialized, or the text fails
validation, or a language code is absent or malformed, or source and
target coincide, or either language code is missing from
`getSupportedLanguages()`. -/
theorem C7_translate_fails_fast (st : TranslatorState) (ttype : String)
    (doTranslate : String → String → String → Except String String)
    (now : Nat) (request : TranslationRequest)
    (h :
      st.isInitializedFlag = false ∨
      ValidationUtils.validateText request.text = false ∨
      request.sourceLang = none ∨
      (∃ sl, request.sourceLang = some sl ∧
        ValidationUtils.validateLanguageCode sl = false) ∨
      ValidationUtils.validateLanguageCode request.targetLang = false ∨
      request.sourceLang = some request.targetLang ∨
      (∃ sl, request.sourceLang = some sl ∧
        st.supportedLanguages.contains sl = false) ∨
      st.supportedLanguages.contains request.targetLang = false) :
    (∃ e, (translate st ttype doTranslate now request).result = .error e) ∧
    (translate st ttype doTranslate now request).doTranslateCalls = 0 := by
  cases hinit : st.isInitializedFlag with
  | false =>
    refine ⟨⟨createTranslationError ttype "Translator not initialized"
      request now, ?_⟩, ?_⟩ <;> simp [BaseTranslator.translate, hinit]
  | true =>
    cases hv : validateRequest st.supportedLanguages request with
    | some msg =>
      refine ⟨⟨createTranslationError ttype msg request now, ?_⟩, ?_⟩ <;>
        simp [BaseTranslator.translate, hinit, hv]
    | none =>
      exfalso
      obtain ⟨htext, sl, hsl, hslv, htlv, hne, hsls, htls⟩ :=
        validateRequest_eq_none hv
      rcases h with h | h | h | ⟨sl2, hsl2, h⟩ | h | h | ⟨sl2, hsl2, h⟩ | h
      · rw [hinit] at h; cases h
      · rw [htext] at h; cases h
      · rw [hsl] at h; cases h
      · rw [hsl] at hsl2
        cases hsl2
        rw [hslv] at h; cases h
      · rw [htlv] at h; cases h
      · rw [hsl] at h
        exact hne (by injection h)
      · rw [hsl] at hsl2
        cases hsl2
        rw [hsls] at h; cases h
      · rw [htls] at h; cases h

open BaseTranslator in
/-- Witness for C7: requesting the unsupported target language `fr`
from an initialized translator supporting only `en` and `zh-CN` throws
and makes zero `doTranslate` calls. -/
theorem C7_translate_fails_fast_witness :
    (∃ e, (translate
        { isInitializedFlag := true, supportedLanguages := ["en", "zh-CN"] }
        "openai" (fun _ _ _ => .ok "should not run") 3
        { text := "hi"
          sourceLang := some "en"
          targetLang := "fr"
          translator := some "openai" }).result = .error e) ∧
    (translate
        { isInitializedFlag := true, supportedLanguages := ["en", "zh-CN"] }
        "openai" (fun _ _ _ => .ok "should not run") 3
        { text := "hi"
          sourceLang := some "en"
          targetLang := "fr"
          translator := some "openai" }).doTranslateCalls = 0 :=
  C7_translate_fails_fast
    { isInitializedFlag := true, supportedLanguages := ["en", "zh-CN"] }
    "openai" (fun _ _ _ => .ok "should not run") 3
    { text := "hi"
      sourceLang := some "en"
      targetLang := "fr"
      translator := some "openai" }
    (Or.inr (Or.inr (Or.inr (Or.inr (Or.inr (Or.inr (Or.inr (by decide))))))))

/-- A pre-existing cache entry under an unrelated key, used as filler. -/
def sampleCacheItem : TranslationCacheItem :=
  { originalText := "old"
    translatedText := "alt"
    sourceLang := "en"
    targetLang := "de"
    translator := "custom"
    timestamp := 1
    hash := "k" }

open ContentTranslationService in
/-- Claim C8: the translation cache is bounded by 1000 entries — from at
most 1000 entries, every `cacheTranslation` call leaves at most 1000 —
and when the cap is exceeded the evicted entry is the first
(oldest-inserted) one: the surviving map is the old tail plus the new
entry at the end. A cache hit is a pure lookup: the cache-hit path of
`translateText` leaves the cache map (and hence the insertion order
that determines the next eviction) unchanged. -/
theorem C8_cache_bound_and_eviction_order
    (cache : List (String × TranslationCacheItem)) (text : String)
    (response : TranslationResponse) (translator : String) (now : Nat)
    (config : PluginSettings) (sanitizeHtml : String → String)
    (behavior : BackendBehavior) (now2 : Nat) (uuid : String)
    (s : ServiceState) (request : TranslationRequest)
    (item : TranslationCacheItem) :
    (cache.length ≤ 1000 →
      (cacheTranslation cache text response translator now).length ≤ 1000) ∧
    (cache.length = 1000 →
      mapGet cache (generateTextHash text response.sourceLang
        response.targetLang translator) = none →
      ∃ v, cacheTranslation cache text response translator now =
        cache.tail ++
          [(generateTextHash text response.sourceLang response.targetLang
              translator, v)]) ∧
    (s.isInitializedFlag = true → config.advanced.enableCache = true →
      serviceCacheLookup config s request = some item →
      (translateText config sanitizeHtml behavior now2 uuid s
          request).state.translationCache = s.translationCache) := by
  refine ⟨fun h => length_cacheTranslation text response translator now h,
    ?_, ?_⟩
  · intro h1000 hfresh
    refine ⟨{ originalText := text
              translatedText := response.translatedText
              sourceLang := response.sourceLang
              targetLang := response.targetLang
              translator := translator
              timestamp := now
              hash := generateTextHash text response.sourceLang
                response.targetLang translator }, ?_⟩
    simp only [cacheTranslation]
    rw [mapSet_eq_append_of_get_none _ hfresh]
    cases cache with
    | nil => simp at h1000
    | cons e rest =>
      have hr : rest.length + 1 = 1000 := by simpa using h1000
      rw [if_pos (by simp; omega)]
      simp only [List.cons_append, List.head?_cons]
      rw [mapDelete_cons_self]
      rfl
  · intro hinit hcache hhit
    rw [translateText_cache_hit config sanitizeHtml behavior now2 uuid s
      request item hinit hcache hhit]

open ContentTranslationService in
set_option maxRecDepth 40000 in
/-- Witness for C8: a full 1000-entry cache evicts its head on the next
fresh write, and a cache hit leaves the single-entry sample cache
untouched. -/
theorem C8_cache_bound_and_eviction_order_witness :
    (cacheTranslation (List.replicate 1000 ("k", sampleCacheItem)) "hello"
        sampleResponse "openai" 7).length ≤ 1000 ∧
    (∃ v, cacheTranslation (List.replicate 1000 ("k", sampleCacheItem)) "hello"
        sampleResponse "openai" 7 =
      (List.replicate 1000 ("k", sampleCacheItem)).tail ++
        [(generateTextHash "hello" "auto" "zh-CN" "openai", v)]) ∧
    (translateText DEFAULT_CONFIG id
        (.createThrows (.errorInstance "must not be called")) 9 "u2"
        { isInitializedFlag := true
          translationCache :=
            [(generateTextHash "hello" "auto" "zh-CN" "openai",
              { originalText := "hello"
                translatedText := "你好"
                sourceLang := "auto"
                targetLang := "zh-CN"
                translator := "openai"
                timestamp := 7
                hash := generateTextHash "hello" "auto" "zh-CN" "openai" })]
          translationHistory := [] }
        sampleRequest).state.translationCache =
      [(generateTextHash "hello" "auto" "zh-CN" "openai",
        { originalText := "hello"
          translatedText := "你好"
          sourceLang := "auto"
          targetLang := "zh-CN"
          translator := "openai"
          timestamp := 7
          hash := generateTextHash "hello" "auto" "zh-CN" "openai" })] := by
  have h := C8_cache_bound_and_eviction_order
    (List.replicate 1000 ("k", sampleCacheItem)) "hello" sampleResponse
    "openai" 7 DEFAULT_CONFIG id
    (.createThrows (.errorInstance "must not be called")) 9 "u2"
    { isInitializedFlag := true
      translationCache :=
        [(generateTextHash "hello" "auto" "zh-CN" "openai",
          { originalText := "hello"
            translatedText := "你好"
            sourceLang := "auto"
            targetLang := "zh-CN"
            translator := "openai"
            timestamp := 7
            hash := generateTextHash "hello" "auto" "zh-CN" "openai" })]
      translationHistory := [] }
    sampleRequest
    { originalText := "hello"
      translatedText := "你好"
      sourceLang := "auto"
      targetLang := "zh-CN"
      translator := "openai"
      timestamp := 7
      hash := generateTextHash "hello" "auto" "zh-CN" "openai" }
  refine ⟨h.1 (by simp), ?_, h.2.2 rfl rfl (by decide)⟩
  have hfresh : mapGet (List.replicate 1000 ("k", sampleCacheItem))
      (generateTextHash "hello" sampleResponse.sourceLang
        sampleResponse.targetLang "openai") = none := by
    decide
  exact h.2.1 (by simp) hfresh

namespace ContentTranslationService

/-- With `advanced.enableCache = false`, `translateText` performs no
cache write (the cache map is returned untouched) and no cache lookup
(the returned response does not depend on the cache contents at all). -/
theorem translateText_cache_disabled (config : PluginSettings)
    (sanitizeHtml : String → String) (behavior : BackendBehavior) (now : Nat)
    (uuid : String) (s : ServiceState) (request : TranslationRequest)
    (hc : config.advanced.enableCache = false) :
    (translateText config sanitizeHtml behavior now uuid s
        request).state.translationCache = s.translationCache ∧
    ∀ cache2,
      (translateText config sanitizeHtml behavior now uuid
          { s with translationCache := cache2 } request).response =
        (translateText config sanitizeHtml behavior now uuid s
          request).response := by
  have hmiss : ∀ s' : ServiceState, config.advanced.enableCache = true →
      serviceCacheLookup config s' request = none :=
    fun s' hcc => absurd hcc (by simp [hc])
  rcases Bool.eq_false_or_eq_true s.isInitializedFlag with hinit | hinit
  case inr =>
    constructor
    · rw [translateText_uninitialized config sanitizeHtml behavior now uuid s
        request hinit]
    · intro cache2
      rw [translateText_uninitialized config sanitizeHtml behavior now uuid s
          request hinit,
        translateText_uninitialized config sanitizeHtml behavior now uuid
          { s with translationCache := cache2 } request hinit]
  · 
    cases hcfg : mapGet config.translators (resolvedTranslator config request)
      with
    | none =>
      constructor
      · rw [translateText_miss_unconfigured config sanitizeHtml behavior now
          uuid s request hinit (hmiss s) hcfg]
      · intro cache2
        rw [translateText_miss_unconfigured config sanitizeHtml behavior now
            uuid s request hinit (hmiss s) hcfg,
          translateText_miss_unconfigured config sanitizeHtml behavior now
            uuid { s with translationCache := cache2 } request hinit
            (hmiss _) hcfg]
    | some tc =>
      cases behavior with
      | createThrows e =>
        constructor
        · rw [translateText_miss_createThrows config sanitizeHtml e now uuid s
            request tc hinit (hmiss s) hcfg]
        · intro cache2
          rw [translateText_miss_createThrows config sanitizeHtml e now uuid s
              request tc hinit (hmiss s) hcfg,
            translateText_miss_createThrows config sanitizeHtml e now uuid
              { s with translationCache := cache2 } request tc hinit
              (hmiss _) hcfg]
      | translateThrows e =>
        constructor
        · rw [translateText_miss_translateThrows config sanitizeHtml e now uuid
            s request tc hinit (hmiss s) hcfg]
        · intro cache2
          rw [translateText_miss_translateThrows config sanitizeHtml e now uuid
              s request tc hinit (hmiss s) hcfg,
            translateText_miss_translateThrows config sanitizeHtml e now uuid
              { s with translationCache := cache2 } request tc hinit
              (hmiss _) hcfg]
      | translateReturns response =>
        constructor
        · rw [translateText_miss_returns config sanitizeHtml response now uuid
            s request tc hinit (hmiss s) hcfg]
          simp [hc]
        · intro cache2
          rw [translateText_miss_returns config sanitizeHtml response now uuid
              s request tc hinit (hmiss s) hcfg,
            translateText_miss_returns config sanitizeHtml response now uuid
              { s with translationCache := cache2 } request tc hinit
              (hmiss _) hcfg]

end ContentTranslationService

/-- `DEFAULT_CONFIG` with every boolean flag of `advanced` switched off
(the configuration surface has no flag for history at all). -/
def allFlagsOffConfig : PluginSettings :=
  { DEFAULT_CONFIG with
      advanced :=
        { DEFAULT_CONFIG.advanced with
            enableCache := false
            enableLogging := false } }

open ContentTranslationService in
/-- Counterexample to claim C9 as stated. The history half of the claim
is false because there is no configuration flag governing history at
all: `PluginSettings.advanced` carries only `enableCache`,
`cacheExpiry`, `enableLogging`, `logLevel` and `maxTokens`, and
`addToHistory` is invoked unconditionally. Even with every boolean flag
disabled, a successful `translateText` call grows the history log. -/
theorem C9_counterexample :
    allFlagsOffConfig.advanced.enableCache = false ∧
    allFlagsOffConfig.advanced.enableLogging = false ∧
    (translateText allFlagsOffConfig id (.translateReturns sampleResponse) 7
        "u1" sampleState sampleRequest).response.status =
      TranslationStatus.success ∧
    (translateText allFlagsOffConfig id (.translateReturns sampleResponse) 7
        "u1" sampleState sampleRequest).state.translationHistory.length =
      sampleState.translationHistory.length + 1 := by
  decide

open ContentTranslationService in
/-- Claim C9, amended: caching is opt-in via `advanced.enableCache` and
defaults to on — when the flag is disabled, `translateText` performs no
cache write and no cache lookup (its response is independent of the
cache contents). History recording, however, is not configurable: for
every configuration whatsoever, a `translateText` call that obtains a
backend response appends to the history log via `addToHistory`. -/
theorem C9_cache_flag_history_unconditional (config : PluginSettings)
    (sanitizeHtml : String → String) (behavior : BackendBehavior) (now : Nat)
    (uuid : String) (s : ServiceState) (request : TranslationRequest) :
    DEFAULT_CONFIG.advanced.enableCache = true ∧
    (config.advanced.enableCache = false →
      (translateText config sanitizeHtml behavior now uuid s
          request).state.translationCache = s.translationCache ∧
      ∀ cache2,
        (translateText config sanitizeHtml behavior now uuid
            { s with translationCache := cache2 } request).response =
          (translateText config sanitizeHtml behavior now uuid s
            request).response) ∧
    (∀ response tc, behavior = .translateReturns response →
      s.isInitializedFlag = true →
      (config.advanced.enableCache = true →
        serviceCacheLookup config s request = none) →
      mapGet config.translators (resolvedTranslator config request) =
        some tc →
      (translateText config sanitizeHtml behavior now uuid s
          request).state.translationHistory =
        addToHistory s.translationHistory response
          (resolvedTranslator config request) uuid) := by
  refine ⟨rfl, ?_, ?_⟩
  · intro hc
    exact translateText_cache_disabled config sanitizeHtml behavior now uuid s
      request hc
  · rintro response tc rfl hinit hmiss hcfg
    rw [translateText_miss_returns config sanitizeHtml response now uuid s
      request tc hinit hmiss hcfg]

open ContentTranslationService in
/-- Witness for C9 (amended): with caching disabled, the sample call
leaves the cache untouched and ignores a poisoned cache, yet still
appends the sample response to the history. -/
theorem C9_cache_flag_history_unconditional_witness :
    (translateText allFlagsOffConfig id (.translateReturns sampleResponse) 7
        "u1" sampleState sampleRequest).state.translationCache =
      sampleState.translationCache ∧
    (translateText allFlagsOffConfig id (.translateReturns sampleResponse) 7
        "u1" sampleState sampleRequest).state.translationHistory =
      addToHistory sampleState.translationHistory sampleResponse "openai"
        "u1" := by
  have h := C9_cache_flag_history_unconditional allFlagsOffConfig id
    (.translateReturns sampleResponse) 7 "u1" sampleState sampleRequest
  refine ⟨(h.2.1 rfl).1, ?_⟩
  have hh := h.2.2 sampleResponse sampleOpenAIConfig rfl rfl
    (fun hcc => absurd hcc (by decide)) (by decide)
  exact hh

/-- Rewrites a cache item's timestamp, leaving everything else alone. -/
def withTimestamp (f : Nat → Nat) (it : TranslationCacheItem) :
    TranslationCacheItem :=
  { it with timestamp := f it.timestamp }

open ContentTranslationService in
/-- Claim C10: cache entries never expire by age. A lookup is entirely
independent of the stored timestamps — rescaling every entry's
timestamp by an arbitrary function changes no lookup result — and the
whole of `translateText` is invariant under arbitrary changes of the
configured `advanced.cacheExpiry` (whose default is 24 hours =
86400000 ms): no operation ever consults it, so entries leave the cache
only through size-cap eviction or an explicit clear. -/
theorem C10_cache_entries_never_expire
    (cache : List (String × TranslationCacheItem))
    (text sourceLang targetLang translator : String)
    (item : TranslationCacheItem) (f : Nat → Nat)
    (config : PluginSettings) (sanitizeHtml : String → String)
    (behavior : BackendBehavior) (now : Nat) (uuid : String)
    (s : ServiceState) (request : TranslationRequest) (expiry : Nat) :
    (getCachedTranslation cache text sourceLang targetLang translator =
        some item →
      getCachedTranslation (cache.map (fun e => (e.1, withTimestamp f e.2)))
          text sourceLang targetLang translator =
        some (withTimestamp f item)) ∧
    (translateText
        { config with
            advanced := { config.advanced with cacheExpiry := expiry } }
        sanitizeHtml behavior now uuid s request =
      translateText config sanitizeHtml behavior now uuid s request) ∧
    DEFAULT_CONFIG.advanced.cacheExpiry = 24 * 60 * 60 * 1000 := by
  refine ⟨?_, rfl, rfl⟩
  intro hget
  unfold getCachedTranslation at hget ⊢
  rw [mapGet_map_value cache (withTimestamp f), hget]
  rfl

open ContentTranslationService in
set_option maxRecDepth 40000 in
/-- Witness for C10: shifting the timestamp of the only cache entry by
a million milliseconds (far past the 24-hour default expiry) does not
change the lookup result. -/
theorem C10_cache_entries_never_expire_witness :
    getCachedTranslation
        ([(generateTextHash "hello" "auto" "zh-CN" "openai",
           { originalText := "hello"
             translatedText := "你好"
             sourceLang := "auto"
             targetLang := "zh-CN"
             translator := "openai"
             timestamp := 7
             hash := generateTextHash "hello" "auto" "zh-CN" "openai" })].map
          (fun e => (e.1, withTimestamp (fun t => t + 1000000) e.2)))
        "hello" "auto" "zh-CN" "openai" =
      some (withTimestamp (fun t => t + 1000000)
        { originalText := "hello"
          translatedText := "你好"
          sourceLang := "auto"
          targetLang := "zh-CN"
          translator := "openai"
          timestamp := 7
          hash := generateTextHash "hello" "auto" "zh-CN" "openai" }) := by
  have h := C10_cache_entries_never_expire
    [(generateTextHash "hello" "auto" "zh-CN" "openai",
      { originalText := "hello"
        translatedText := "你好"
        sourceLang := "auto"
        targetLang := "zh-CN"
        translator := "openai"
        timestamp := 7
        hash := generateTextHash "hello" "auto" "zh-CN" "openai" })]
    "hello" "auto" "zh-CN" "openai"
    { originalText := "hello"
      translatedText := "你好"
      sourceLang := "auto"
      targetLang := "zh-CN"
      translator := "openai"
      timestamp := 7
      hash := generateTextHash "hello" "auto" "zh-CN" "openai" }
    (fun t => t + 1000000) DEFAULT_CONFIG id
    (.translateReturns sampleResponse) 7 "u1" sampleState sampleRequest 0
  exact h.1 (by decide)

end ObsidianTranslate
